import Mathlib

/-!
Shallow embedding of the agent-factory Solana program
(programs/agent-factory/src): the bonding-curve market maker
(state/bonding_curve.rs), the trade handlers (instructions/buy_tokens.rs,
instructions/sell_tokens.rs), graduation (state/agent.rs,
instructions/graduate_agent.rs) and the X402 payment protocol
(state/x402_config.rs, instructions/pay_for_service.rs,
instructions/update_x402.rs).

Machine integers are modelled as `Nat` together with the checked-arithmetic
combinators below, which return `none` exactly when the corresponding Rust
`checked_*` operation on u64/u128 returns `None`.  The Rust `as u64` cast is
`castU64` (truncation mod 2^64).  Fallible handlers return `Except`; an
`Except.error` models a transaction abort, after which no state change is
observable.
-/

deriving instance DecidableEq for Except

namespace AgentFactory

/-- Modulus of the 64-bit unsigned integers. -/
def U64 : Nat := 2 ^ 64

/-- Modulus of the 128-bit unsigned integers. -/
def U128 : Nat := 2 ^ 128

/-- Rust `u64::checked_add`. -/
def checked_add (a b : Nat) : Option Nat :=
  if a + b < U64 then some (a + b) else none

/-- Rust `u64::checked_sub` (identical to `u128::checked_sub`). -/
def checked_sub (a b : Nat) : Option Nat :=
  if b ≤ a then some (a - b) else none

/-- Rust `u64::checked_mul`. -/
def checked_mul (a b : Nat) : Option Nat :=
  if a * b < U64 then some (a * b) else none

/-- Rust `u128::checked_mul`. -/
def checked_mul128 (a b : Nat) : Option Nat :=
  if a * b < U128 then some (a * b) else none

/-- Rust `checked_div` (u64 or u128): `None` exactly on a zero divisor. -/
def checked_div (a b : Nat) : Option Nat :=
  if b = 0 then none else some (a / b)

/-- Rust `as u64` cast: truncation modulo 2^64. -/
def castU64 (a : Nat) : Nat := a % U64

/-- Errors of errors.rs (`AgentFactoryError`), restricted to the variants the
modelled handlers can produce. -/
inductive AgentFactoryError where
  | MathOverflow
  | InsufficientLiquidity
  | SlippageExceeded
  | AlreadyGraduated
  | CannotGraduate
  | InvalidBuyAmount
  | InvalidSellAmount
  deriving DecidableEq, Repr

/-- Bonding curve state, state/bonding_curve.rs (all fields u64). -/
structure BondingCurve where
  virtual_sol_reserves : Nat
  virtual_token_reserves : Nat
  real_sol_reserves : Nat
  real_token_reserves : Nat
  graduation_threshold : Nat
  bonding_curve_supply : Nat
  total_supply : Nat
  deriving DecidableEq, Repr

/-- `BondingCurve::new`: the pump.fun style seed parameters. -/
def BondingCurve.new : BondingCurve where
  virtual_sol_reserves := 30 * 1000000000
  virtual_token_reserves := 1073000000 * 1000000000
  real_sol_reserves := 0
  real_token_reserves := 800000000 * 1000000000
  graduation_threshold := 30000 * 1000000000
  bonding_curve_supply := 800000000 * 1000000000
  total_supply := 1000000000 * 1000000000

/-- `BondingCurve::calculate_buy`: tokens out for a SOL input, via the
constant-product formula, with every step checked exactly as in the source. -/
def BondingCurve.calculate_buy (c : BondingCurve) (sol_amount : Nat) :
    Except AgentFactoryError Nat :=
  match checked_add c.virtual_sol_reserves sol_amount with
  | none => .error .MathOverflow
  | some new_sol_reserves =>
    match checked_mul128 c.virtual_sol_reserves c.virtual_token_reserves with
    | none => .error .MathOverflow
    | some product =>
      match checked_div product new_sol_reserves with
      | none => .error .MathOverflow
      | some q =>
        match checked_sub c.virtual_token_reserves (castU64 q) with
        | none => .error .InsufficientLiquidity
        | some tokens_out => .ok tokens_out

/-- `BondingCurve::calculate_sell`: SOL out for a token input. -/
def BondingCurve.calculate_sell (c : BondingCurve) (token_amount : Nat) :
    Except AgentFactoryError Nat :=
  match checked_add c.virtual_token_reserves token_amount with
  | none => .error .MathOverflow
  | some new_token_reserves =>
    match checked_mul128 c.virtual_sol_reserves c.virtual_token_reserves with
    | none => .error .MathOverflow
    | some product =>
      match checked_div product new_token_reserves with
      | none => .error .MathOverflow
      | some q =>
        match checked_sub c.virtual_sol_reserves (castU64 q) with
        | none => .error .InsufficientLiquidity
        | some sol_out => .ok sol_out

/-- `BondingCurve::update_after_buy`. -/
def BondingCurve.update_after_buy (c : BondingCurve) (sol_amount tokens_out : Nat) :
    Except AgentFactoryError BondingCurve :=
  match checked_add c.virtual_sol_reserves sol_amount with
  | none => .error .MathOverflow
  | some vs =>
    match checked_sub c.virtual_token_reserves tokens_out with
    | none => .error .MathOverflow
    | some vt =>
      match checked_add c.real_sol_reserves sol_amount with
      | none => .error .MathOverflow
      | some rs =>
        match checked_sub c.real_token_reserves tokens_out with
        | none => .error .MathOverflow
        | some rt =>
          .ok { c with
                virtual_sol_reserves := vs
                virtual_token_reserves := vt
                real_sol_reserves := rs
                real_token_reserves := rt }

/-- `BondingCurve::update_after_sell`. -/
def BondingCurve.update_after_sell (c : BondingCurve) (token_amount sol_out : Nat) :
    Except AgentFactoryError BondingCurve :=
  match checked_add c.virtual_token_reserves token_amount with
  | none => .error .MathOverflow
  | some vt =>
    match checked_sub c.virtual_sol_reserves sol_out with
    | none => .error .MathOverflow
    | some vs =>
      match checked_add c.real_token_reserves token_amount with
      | none => .error .MathOverflow
      | some rt =>
        match checked_sub c.real_sol_reserves sol_out with
        | none => .error .MathOverflow
        | some rs =>
          .ok { c with
                virtual_sol_reserves := vs
                virtual_token_reserves := vt
                real_sol_reserves := rs
                real_token_reserves := rt }

/-- The fee split appearing verbatim in both buy_tokens.rs and sell_tokens.rs:
platform fee and creator fee are each `gross * 100 / 10000` (1%, basis points
over 10000), net is gross minus both, every step checked.  Returns
(platform_fee, creator_fee, net_amount). -/
def fee_split (gross : Nat) : Except AgentFactoryError (Nat × Nat × Nat) :=
  match checked_mul gross 100 with
  | none => .error .MathOverflow
  | some pm =>
    match checked_div pm 10000 with
    | none => .error .MathOverflow
    | some platform_fee =>
      match checked_mul gross 100 with
      | none => .error .MathOverflow
      | some cm =>
        match checked_div cm 10000 with
        | none => .error .MathOverflow
        | some creator_fee =>
          match checked_sub gross platform_fee with
          | none => .error .MathOverflow
          | some n1 =>
            match checked_sub n1 creator_fee with
            | none => .error .MathOverflow
            | some net => .ok (platform_fee, creator_fee, net)

/-- Agent account, state/agent.rs, restricted to the fields the modelled
handlers read or write (identity and metadata fields — ids, pubkeys, strings,
timestamps — are never touched by buy/sell/graduate and are omitted). -/
structure Agent where
  is_graduated : Bool
  bonding_curve : BondingCurve
  deriving DecidableEq, Repr

/-- `Agent::can_graduate`: not yet graduated and real SOL reserves have
reached the graduation threshold. -/
def Agent.can_graduate (a : Agent) : Bool :=
  !a.is_graduated &&
    decide (a.bonding_curve.graduation_threshold ≤ a.bonding_curve.real_sol_reserves)

/-- `graduate_agent::handler`: requires `can_graduate`, then sets
`is_graduated = true`. -/
def graduate_agent (a : Agent) : Except AgentFactoryError Agent :=
  if a.can_graduate then .ok { a with is_graduated := true }
  else .error .CannotGraduate

/-- `buy_tokens::handler`, the state-transition part: zero-amount guard,
graduation guard, quote from the gross SOL input, slippage check, fee split,
then the reserve update applied with the net amount and the quoted tokens.
The SOL transfers and the mint are movements of external ledger balances
(the buyer funds them); they do not affect the agent state modelled here.
Returns the updated agent and `tokens_out`. -/
def buy_tokens (a : Agent) (sol_amount min_tokens_out : Nat) :
    Except AgentFactoryError (Agent × Nat) :=
  if ¬ 0 < sol_amount then .error .InvalidBuyAmount
  else if a.is_graduated then .error .AlreadyGraduated
  else
    match a.bonding_curve.calculate_buy sol_amount with
    | .error e => .error e
    | .ok tokens_out =>
      if ¬ min_tokens_out ≤ tokens_out then .error .SlippageExceeded
      else
        match fee_split sol_amount with
        | .error e => .error e
        | .ok fs =>
          match a.bonding_curve.update_after_buy fs.2.2 tokens_out with
          | .error e => .error e
          | .ok bc => .ok ({ a with bonding_curve := bc }, tokens_out)

/-- Failure modes of `sell_tokens::handler`: a program error returned through
`Result`, or the abort raised when an unchecked lamport debit
(`**account.try_borrow_mut_lamports()? -= fee`) underflows. -/
inductive SellError where
  | program (e : AgentFactoryError)
  | burnFailed
  | lamportUnderflow
  deriving DecidableEq, Repr

/-- The accounts `sell_tokens::handler` moves value between, alongside the
agent account itself: lamport balances and the seller's token balance. -/
structure SellState where
  agent : Agent
  agent_lamports : Nat
  seller_lamports : Nat
  treasury_lamports : Nat
  creator_lamports : Nat
  seller_token_balance : Nat
  deriving DecidableEq, Repr

/-- `sell_tokens::handler`: guards, quote, slippage, fee split on the quoted
SOL (fs = (platform_fee, creator_fee, net_sol_out)), burn of the seller's
tokens, a liquidity check covering only the net payout, the three lamport
transfers — the net payout covered by the preceding require, the two fee
debits unchecked (`-=` on the account lamports), aborting mid-transfer on
underflow — then the reserve update with the gross quote.  The sequential
lamport updates of the source are flattened into the final record: a fee of
zero is skipped in the source, which coincides with debiting/crediting zero,
and the underflow check of each debit is written against the balance left
after the preceding debits, exactly as the sequential code leaves it.  On
failure the returned Bool records whether a value movement (the burn or a
lamport transfer) had already been issued at that point. -/
def sell_tokens (st : SellState) (token_amount min_sol_out : Nat) :
    Except (SellError × Bool) SellState :=
  if ¬ 0 < token_amount then .error (.program .InvalidSellAmount, false)
  else if st.agent.is_graduated then .error (.program .AlreadyGraduated, false)
  else
    match st.agent.bonding_curve.calculate_sell token_amount with
    | .error e => .error (.program e, false)
    | .ok sol_out =>
      if ¬ min_sol_out ≤ sol_out then .error (.program .SlippageExceeded, false)
      else
        match fee_split sol_out with
        | .error e => .error (.program e, false)
        | .ok fs =>
          if ¬ token_amount ≤ st.seller_token_balance then .error (.burnFailed, false)
          else if ¬ fs.2.2 ≤ st.agent_lamports then
            .error (.program .InsufficientLiquidity, true)
          else if 0 < fs.1 ∧ ¬ fs.1 ≤ st.agent_lamports - fs.2.2 then
            .error (.lamportUnderflow, true)
          else if 0 < fs.2.1 ∧ ¬ fs.2.1 ≤ st.agent_lamports - fs.2.2 - fs.1 then
            .error (.lamportUnderflow, true)
          else
            match st.agent.bonding_curve.update_after_sell token_amount sol_out with
            | .error e => .error (.program e, true)
            | .ok bc =>
              .ok { agent := { st.agent with bonding_curve := bc }
                    agent_lamports := st.agent_lamports - fs.2.2 - fs.1 - fs.2.1
                    seller_lamports := st.seller_lamports + fs.2.2
                    treasury_lamports := st.treasury_lamports + fs.1
                    creator_lamports := st.creator_lamports + fs.2.1
                    seller_token_balance := st.seller_token_balance - token_amount }

/-- The buy settlement of `buy_tokens::handler` at the level of the curve
alone: quote from the gross input, fee split, reserve update with the net
amount and the quote (the orchestration guards — zero amount, graduation,
slippage — only restrict which settlements run and are dropped here). -/
def applyBuy (c : BondingCurve) (sol_amount : Nat) :
    Except AgentFactoryError (BondingCurve × Nat) :=
  match c.calculate_buy sol_amount with
  | .error e => .error e
  | .ok tokens_out =>
    match fee_split sol_amount with
    | .error e => .error e
    | .ok fs =>
      match c.update_after_buy fs.2.2 tokens_out with
      | .error e => .error e
      | .ok c' => .ok (c', tokens_out)

/-- The sell settlement of `sell_tokens::handler` at the level of the curve
alone: quote, fee split on the quote, reserve update with the gross token
amount and the gross quote. -/
def applySell (c : BondingCurve) (token_amount : Nat) :
    Except AgentFactoryError (BondingCurve × Nat) :=
  match c.calculate_sell token_amount with
  | .error e => .error e
  | .ok sol_out =>
    match fee_split sol_out with
    | .error e => .error e
    | .ok _fs =>
      match c.update_after_sell token_amount sol_out with
      | .error e => .error e
      | .ok c' => .ok (c', sol_out)

/-- Curve states reachable from the seeded curve by successful buy/sell
settlements. -/
inductive Reachable : BondingCurve → Prop where
  | seed : Reachable BondingCurve.new
  | buy (c c' : BondingCurve) (amt out : Nat) :
      Reachable c → applyBuy c amt = .ok (c', out) → Reachable c'
  | sell (c c' : BondingCurve) (amt sol : Nat) :
      Reachable c → applySell c amt = .ok (c', sol) → Reachable c'

/-- Errors of the X402 payment protocol (state/x402_config.rs), restricted to
the variants the modelled handlers can produce. -/
inductive X402Error where
  | PaymentTooLow
  | PaymentTooHigh
  | PaymentsNotEnabled
  | NonceMismatch
  | NonceOverflow
  | MathOverflow
  | InvalidServiceId
  deriving DecidableEq, Repr

/-- Payment status of a payment record, state/x402_config.rs. -/
inductive PaymentStatus where
  | Pending
  | Verified
  | Settled
  | Failed
  deriving DecidableEq, Repr

/-- X402 payment configuration for an agent, state/x402_config.rs.  Account
keys (`agent`, `payment_recipient`) are abstract identifiers; `bump` is the
PDA bump byte. -/
structure X402Config where
  agent : Nat
  payment_recipient : Nat
  enabled : Bool
  min_payment_amount : Nat
  max_payment_amount : Nat
  service_timeout_seconds : Nat
  total_payments_received : Nat
  total_service_calls : Nat
  nonce : Nat
  bump : Nat
  deriving DecidableEq, Repr

/-- Payment record created by an accepted payment, state/x402_config.rs
(account keys and the PDA bump abstracted as in `X402Config`). -/
structure X402PaymentRecord where
  agent : Nat
  payer : Nat
  amount : Nat
  timestamp : Int
  service_id : String
  status : PaymentStatus
  deriving DecidableEq, Repr

/-- `X402Config::validate_payment_amount`: at least the minimum and, when a
maximum is configured (nonzero), at most the maximum. -/
def X402Config.validate_payment_amount (c : X402Config) (amount : Nat) :
    Except X402Error Unit :=
  if ¬ c.min_payment_amount ≤ amount then .error .PaymentTooLow
  else if 0 < c.max_payment_amount ∧ ¬ amount ≤ c.max_payment_amount then
    .error .PaymentTooHigh
  else .ok ()

/-- `X402Config::increment_nonce`: checked increment, `NonceOverflow` at
u64::MAX. -/
def X402Config.increment_nonce (c : X402Config) : Except X402Error X402Config :=
  match checked_add c.nonce 1 with
  | none => .error .NonceOverflow
  | some n => .ok { c with nonce := n }

/-- `X402Config::record_payment`: checked accumulation of the payment total
and the call counter. -/
def X402Config.record_payment (c : X402Config) (amount : Nat) :
    Except X402Error X402Config :=
  match checked_add c.total_payments_received amount with
  | none => .error .MathOverflow
  | some t =>
    match checked_add c.total_service_calls 1 with
    | none => .error .MathOverflow
    | some s => .ok { c with total_payments_received := t, total_service_calls := s }

/-- `pay_for_service::handler`: enabled check, amount bounds, nonce check
against `stored_nonce + 1` (an unchecked u64 addition, hence reduced mod
2^64), service-id length check, the USDC transfer (external token balances,
funded by the payer), record creation, nonce increment and counters.
`agent_key`/`payer_key` are the involved account identifiers and `now` the
clock timestamp.  An error models the abort of the whole transaction. -/
def pay_for_service (cfg : X402Config) (amount : Nat) (service_id : String)
    (nonce : Nat) (agent_key payer_key : Nat) (now : Int) :
    Except X402Error (X402Config × X402PaymentRecord) :=
  if ¬ cfg.enabled then .error .PaymentsNotEnabled
  else
    match cfg.validate_payment_amount amount with
    | .error e => .error e
    | .ok _ =>
      if ¬ nonce = castU64 (cfg.nonce + 1) then .error .NonceMismatch
      else if ¬ (0 < service_id.length ∧ service_id.length ≤ 32) then
        .error .InvalidServiceId
      else
        let record : X402PaymentRecord :=
          { agent := agent_key
            payer := payer_key
            amount := amount
            timestamp := now
            service_id := service_id
            status := .Verified }
        match cfg.increment_nonce with
        | .error e => .error e
        | .ok cfg =>
          match cfg.record_payment amount with
          | .error e => .error e
          | .ok cfg => .ok (cfg, record)

/-- `call_agent_service::handler` (agent-to-agent service call): the same
validation and settlement sequence as `pay_for_service`, plus a 1 KiB bound
on the opaque service params (rejected with InvalidServiceId), and the
record carries status Settled.  The params payload is carried to the emitted
event only and is modelled as a list of bytes. -/
def call_agent_service (cfg : X402Config) (amount : Nat) (service_id : String)
    (nonce : Nat) (service_params : List Nat) (agent_key caller_key : Nat)
    (now : Int) : Except X402Error (X402Config × X402PaymentRecord) :=
  if ¬ cfg.enabled then .error .PaymentsNotEnabled
  else
    match cfg.validate_payment_amount amount with
    | .error e => .error e
    | .ok _ =>
      if ¬ nonce = castU64 (cfg.nonce + 1) then .error .NonceMismatch
      else if ¬ (0 < service_id.length ∧ service_id.length ≤ 32) then
        .error .InvalidServiceId
      else if ¬ service_params.length ≤ 1024 then .error .InvalidServiceId
      else
        let record : X402PaymentRecord :=
          { agent := agent_key
            payer := caller_key
            amount := amount
            timestamp := now
            service_id := service_id
            status := .Settled }
        match cfg.increment_nonce with
        | .error e => .error e
        | .ok cfg =>
          match cfg.record_payment amount with
          | .error e => .error e
          | .ok cfg => .ok (cfg, record)

/-- `update_x402::handler`: overwrites the enable flag, the two payment
bounds and the timeout, and nothing else. -/
def update_x402 (cfg : X402Config) (enabled : Bool)
    (min_payment_amount max_payment_amount service_timeout_seconds : Nat) :
    X402Config :=
  { cfg with
    enabled := enabled
    min_payment_amount := min_payment_amount
    max_payment_amount := max_payment_amount
    service_timeout_seconds := service_timeout_seconds }

/-- One pay request: the arguments a caller submits to `pay_for_service`. -/
structure PayReq where
  amount : Nat
  service_id : String
  nonce : Nat
  payer_key : Nat
  now : Int
  deriving Repr

/-- Run a list of pay requests sequentially against a config for one agent;
a failed request leaves the config unchanged (transaction abort).  Returns
the final config and the supplied nonces of the accepted payments, in
order. -/
def payTrace (agent_key : Nat) : X402Config → List PayReq → X402Config × List Nat
  | cfg, [] => (cfg, [])
  | cfg, r :: rs =>
    match pay_for_service cfg r.amount r.service_id r.nonce agent_key r.payer_key r.now with
    | .ok (cfg', _) =>
      let t := payTrace agent_key cfg' rs
      (t.1, r.nonce :: t.2)
    | .error _ => payTrace agent_key cfg rs

/-!  Helper lemmas: characterizations of the checked operations and of the
arithmetic paths, shared by the claim theorems below. -/

theorem checked_add_eq_some {a b n : Nat} :
    checked_add a b = some n ↔ a + b < U64 ∧ n = a + b := by
  unfold checked_add
  split <;> simp_all [eq_comm]

theorem checked_sub_eq_some {a b n : Nat} :
    checked_sub a b = some n ↔ b ≤ a ∧ n = a - b := by
  unfold checked_sub
  split <;> simp_all [eq_comm]

theorem fee_split_ok (g : Nat) (h : g * 100 < U64) :
    fee_split g = .ok (g * 100 / 10000, g * 100 / 10000,
      g - g * 100 / 10000 - g * 100 / 10000) := by
  have hd : g * 100 / 10000 * 10000 ≤ g * 100 := Nat.div_mul_le_self _ _
  have h1 : g * 100 / 10000 ≤ g := by omega
  have h2 : g * 100 / 10000 ≤ g - g * 100 / 10000 := by omega
  simp [fee_split, checked_mul, checked_div, checked_sub, h, h1, h2]

theorem fee_split_ok_inv {g p cf net : Nat}
    (h : fee_split g = .ok (p, cf, net)) :
    g * 100 < U64 ∧ p = g * 100 / 10000 ∧ cf = g * 100 / 10000 ∧
      net = g - p - cf := by
  unfold fee_split checked_mul checked_div checked_sub at h
  split at h <;> simp_all
  split at h <;> simp_all
  split at h <;> simp_all
  omega

theorem quot_le_token (S T g : Nat) : S * T / (S + g) ≤ T := by
  rcases Nat.eq_zero_or_pos (S + g) with h0 | h0
  · simp [h0, Nat.eq_zero_of_add_eq_zero_right h0]
  · calc S * T / (S + g) ≤ (S + g) * T / (S + g) :=
        Nat.div_le_div_right (Nat.mul_le_mul_right _ (Nat.le_add_right _ _))
    _ = T := Nat.mul_div_cancel_left _ h0

theorem quot_le_sol (S T t : Nat) : S * T / (T + t) ≤ S := by
  rcases Nat.eq_zero_or_pos (T + t) with h0 | h0
  · simp [h0, Nat.eq_zero_of_add_eq_zero_right h0]
  · calc S * T / (T + t) ≤ S * (T + t) / (T + t) :=
        Nat.div_le_div_right (Nat.mul_le_mul_left _ (Nat.le_add_right _ _))
    _ = S := Nat.mul_div_cancel _ h0

theorem calc_buy_spec (c : BondingCurve) (g : Nat)
    (hS : c.virtual_sol_reserves < U64) (hT : c.virtual_token_reserves < U64) :
    c.calculate_buy g =
      if c.virtual_sol_reserves + g < U64 then
        if c.virtual_sol_reserves + g = 0 then .error .MathOverflow
        else .ok (c.virtual_token_reserves -
          c.virtual_sol_reserves * c.virtual_token_reserves /
            (c.virtual_sol_reserves + g))
      else .error .MathOverflow := by
  have hmul : c.virtual_sol_reserves * c.virtual_token_reserves < U128 := by
    have := Nat.mul_lt_mul'' hS hT
    simpa [U64, U128, pow_add] using this
  have hq := quot_le_token c.virtual_sol_reserves c.virtual_token_reserves g
  have hcast : castU64 (c.virtual_sol_reserves * c.virtual_token_reserves /
      (c.virtual_sol_reserves + g)) =
      c.virtual_sol_reserves * c.virtual_token_reserves /
        (c.virtual_sol_reserves + g) :=
    Nat.mod_eq_of_lt (lt_of_le_of_lt hq hT)
  have hU : 0 < U64 := by norm_num [U64]
  by_cases hadd : c.virtual_sol_reserves + g < U64
  · by_cases h0 : c.virtual_sol_reserves + g = 0
    · simp [BondingCurve.calculate_buy, checked_add, checked_mul128, checked_div,
        hadd, h0, hmul, hU]
    · simp [BondingCurve.calculate_buy, checked_add, checked_mul128, checked_div,
        checked_sub, hadd, h0, hmul, hcast, le_trans hq (le_refl _), hq]
  · simp [BondingCurve.calculate_buy, checked_add, hadd]

theorem calc_sell_spec (c : BondingCurve) (t : Nat)
    (hS : c.virtual_sol_reserves < U64) (hT : c.virtual_token_reserves < U64) :
    c.calculate_sell t =
      if c.virtual_token_reserves + t < U64 then
        if c.virtual_token_reserves + t = 0 then .error .MathOverflow
        else .ok (c.virtual_sol_reserves -
          c.virtual_sol_reserves * c.virtual_token_reserves /
            (c.virtual_token_reserves + t))
      else .error .MathOverflow := by
  have hmul : c.virtual_sol_reserves * c.virtual_token_reserves < U128 := by
    have := Nat.mul_lt_mul'' hS hT
    simpa [U64, U128, pow_add] using this
  have hq := quot_le_sol c.virtual_sol_reserves c.virtual_token_reserves t
  have hcast : castU64 (c.virtual_sol_reserves * c.virtual_token_reserves /
      (c.virtual_token_reserves + t)) =
      c.virtual_sol_reserves * c.virtual_token_reserves /
        (c.virtual_token_reserves + t) :=
    Nat.mod_eq_of_lt (lt_of_le_of_lt hq hS)
  have hU : 0 < U64 := by norm_num [U64]
  by_cases hadd : c.virtual_token_reserves + t < U64
  · by_cases h0 : c.virtual_token_reserves + t = 0
    · simp [BondingCurve.calculate_sell, checked_add, checked_mul128, checked_div,
        hadd, h0, hmul, hU]
    · simp [BondingCurve.calculate_sell, checked_add, checked_mul128, checked_div,
        checked_sub, hadd, h0, hmul, hcast, hq]
  · simp [BondingCurve.calculate_sell, checked_add, hadd]

theorem calc_buy_ok_inv {c : BondingCurve} {g out : Nat}
    (hS : c.virtual_sol_reserves < U64) (hT : c.virtual_token_reserves < U64)
    (h : c.calculate_buy g = .ok out) :
    0 < c.virtual_sol_reserves + g ∧ c.virtual_sol_reserves + g < U64 ∧
      out = c.virtual_token_reserves -
        c.virtual_sol_reserves * c.virtual_token_reserves /
          (c.virtual_sol_reserves + g) := by
  rw [calc_buy_spec c g hS hT] at h
  split at h
  · split at h
    · simp at h
    · simp_all
      omega
  · simp at h

theorem calc_sell_ok_inv {c : BondingCurve} {t out : Nat}
    (hS : c.virtual_sol_reserves < U64) (hT : c.virtual_token_reserves < U64)
    (h : c.calculate_sell t = .ok out) :
    0 < c.virtual_token_reserves + t ∧ c.virtual_token_reserves + t < U64 ∧
      out = c.virtual_sol_reserves -
        c.virtual_sol_reserves * c.virtual_token_reserves /
          (c.virtual_token_reserves + t) := by
  rw [calc_sell_spec c t hS hT] at h
  split at h
  · split at h
    · simp at h
    · simp_all
      omega
  · simp at h

theorem update_after_buy_ok {c : BondingCurve} {s t : Nat} {c' : BondingCurve}
    (h : c.update_after_buy s t = .ok c') :
    c.virtual_sol_reserves + s < U64 ∧ t ≤ c.virtual_token_reserves ∧
      c.real_sol_reserves + s < U64 ∧ t ≤ c.real_token_reserves ∧
      c' = { c with
             virtual_sol_reserves := c.virtual_sol_reserves + s
             virtual_token_reserves := c.virtual_token_reserves - t
             real_sol_reserves := c.real_sol_reserves + s
             real_token_reserves := c.real_token_reserves - t } := by
  unfold BondingCurve.update_after_buy at h
  split at h <;> rename_i h1
  · simp at h
  · rw [checked_add_eq_some] at h1
    split at h <;> rename_i h2
    · simp at h
    · rw [checked_sub_eq_some] at h2
      split at h <;> rename_i h3
      · simp at h
      · rw [checked_add_eq_some] at h3
        split at h <;> rename_i h4
        · simp at h
        · rw [checked_sub_eq_some] at h4
          obtain ⟨rfl⟩ := h
          obtain ⟨hh1, rfl⟩ := h1
          obtain ⟨hh2, rfl⟩ := h2
          obtain ⟨hh3, rfl⟩ := h3
          obtain ⟨hh4, rfl⟩ := h4
          exact ⟨hh1, hh2, hh3, hh4, rfl⟩

theorem update_after_sell_ok {c : BondingCurve} {t s : Nat} {c' : BondingCurve}
    (h : c.update_after_sell t s = .ok c') :
    c.virtual_token_reserves + t < U64 ∧ s ≤ c.virtual_sol_reserves ∧
      c.real_token_reserves + t < U64 ∧ s ≤ c.real_sol_reserves ∧
      c' = { c with
             virtual_sol_reserves := c.virtual_sol_reserves - s
             virtual_token_reserves := c.virtual_token_reserves + t
             real_sol_reserves := c.real_sol_reserves - s
             real_token_reserves := c.real_token_reserves + t } := by
  unfold BondingCurve.update_after_sell at h
  split at h <;> rename_i h1
  · simp at h
  · rw [checked_add_eq_some] at h1
    split at h <;> rename_i h2
    · simp at h
    · rw [checked_sub_eq_some] at h2
      split at h <;> rename_i h3
      · simp at h
      · rw [checked_add_eq_some] at h3
        split at h <;> rename_i h4
        · simp at h
        · rw [checked_sub_eq_some] at h4
          obtain ⟨rfl⟩ := h
          obtain ⟨hh1, rfl⟩ := h1
          obtain ⟨hh2, rfl⟩ := h2
          obtain ⟨hh3, rfl⟩ := h3
          obtain ⟨hh4, rfl⟩ := h4
          exact ⟨hh1, hh2, hh3, hh4, rfl⟩

/-- Inductive invariant of the seeded curve under buy/sell settlements: the
virtual reserves are the real reserves shifted by the fixed seed offsets, the
constant product never exceeds its seed value, the supply is the seed supply,
and the virtual reserves fit in u64. -/
def CurveInv (c : BondingCurve) : Prop :=
  c.virtual_sol_reserves = c.real_sol_reserves + 30000000000 ∧
  c.virtual_token_reserves = c.real_token_reserves + 273000000000000000 ∧
  c.virtual_sol_reserves * c.virtual_token_reserves ≤
    30000000000 * 1073000000000000000 ∧
  c.bonding_curve_supply = 800000000000000000 ∧
  c.virtual_sol_reserves < U64 ∧
  c.virtual_token_reserves < U64

theorem curveInv_new : CurveInv BondingCurve.new := by
  refine ⟨rfl, rfl, le_refl _, rfl, ?_, ?_⟩ <;> norm_num [BondingCurve.new, U64]

theorem applyBuy_ok_inv {c c' : BondingCurve} {amt out : Nat}
    (h : applyBuy c amt = .ok (c', out)) :
    ∃ fs, c.calculate_buy amt = .ok out ∧
      fee_split amt = .ok fs ∧
      c.update_after_buy fs.2.2 out = .ok c' := by
  unfold applyBuy at h
  split at h
  · rename_i e hq
    simp at h
  · rename_i tokens_out hq
    split at h
    · rename_i e hf
      simp at h
    · rename_i fs hf
      split at h
      · rename_i e hu
        simp at h
      · rename_i c2 hu
        simp only [Except.ok.injEq, Prod.mk.injEq] at h
        obtain ⟨rfl, rfl⟩ := h
        exact ⟨fs, hq, hf, hu⟩

theorem applySell_ok_inv {c c' : BondingCurve} {amt sol : Nat}
    (h : applySell c amt = .ok (c', sol)) :
    ∃ fs, c.calculate_sell amt = .ok sol ∧
      fee_split sol = .ok fs ∧
      c.update_after_sell amt sol = .ok c' := by
  unfold applySell at h
  split at h
  · rename_i e hq
    simp at h
  · rename_i sol_out hq
    split at h
    · rename_i e hf
      simp at h
    · rename_i fs hf
      split at h
      · rename_i e hu
        simp at h
      · rename_i c2 hu
        simp only [Except.ok.injEq, Prod.mk.injEq] at h
        obtain ⟨rfl, rfl⟩ := h
        exact ⟨fs, hq, hf, hu⟩

theorem applyBuy_inv {c c' : BondingCurve} {amt out : Nat}
    (hinv : CurveInv c) (h : applyBuy c amt = .ok (c', out)) : CurveInv c' := by
  obtain ⟨e1, e2, e3, e4, e5, e6⟩ := hinv
  obtain ⟨fs, hq, hf, hu⟩ := applyBuy_ok_inv h
  obtain ⟨-, hlt, hout⟩ := calc_buy_ok_inv e5 e6 hq
  obtain ⟨-, -, -, hnet⟩ := fee_split_ok_inv hf
  obtain ⟨u1, u2, u3, u4, rfl⟩ := update_after_buy_ok hu
  have hqT := quot_le_token c.virtual_sol_reserves c.virtual_token_reserves amt
  have hnet_le : fs.2.2 ≤ amt := by
    rw [hnet]
    exact le_trans (Nat.sub_le _ _) (Nat.sub_le _ _)
  have hprod : (c.virtual_sol_reserves + fs.2.2) *
      (c.virtual_token_reserves - out) ≤
      30000000000 * 1073000000000000000 := by
    have hsub : c.virtual_token_reserves - out =
        c.virtual_sol_reserves * c.virtual_token_reserves /
          (c.virtual_sol_reserves + amt) := by omega
    rw [hsub]
    calc (c.virtual_sol_reserves + fs.2.2) *
          (c.virtual_sol_reserves * c.virtual_token_reserves /
            (c.virtual_sol_reserves + amt))
        ≤ (c.virtual_sol_reserves + amt) *
          (c.virtual_sol_reserves * c.virtual_token_reserves /
            (c.virtual_sol_reserves + amt)) :=
          Nat.mul_le_mul_right _ (Nat.add_le_add_left hnet_le _)
      _ = c.virtual_sol_reserves * c.virtual_token_reserves /
            (c.virtual_sol_reserves + amt) * (c.virtual_sol_reserves + amt) :=
          Nat.mul_comm _ _
      _ ≤ c.virtual_sol_reserves * c.virtual_token_reserves :=
          Nat.div_mul_le_self _ _
      _ ≤ 30000000000 * 1073000000000000000 := e3
  refine ⟨?_, ?_, ?_, ?_, ?_, ?_⟩ <;> dsimp only
  · omega
  · omega
  · exact hprod
  · exact e4
  · omega
  · omega

theorem applySell_inv {c c' : BondingCurve} {amt sol : Nat}
    (hinv : CurveInv c) (h : applySell c amt = .ok (c', sol)) : CurveInv c' := by
  obtain ⟨e1, e2, e3, e4, e5, e6⟩ := hinv
  obtain ⟨fs, hq, hf, hu⟩ := applySell_ok_inv h
  obtain ⟨-, hlt, hsol⟩ := calc_sell_ok_inv e5 e6 hq
  obtain ⟨u1, u2, u3, u4, rfl⟩ := update_after_sell_ok hu
  have hqS := quot_le_sol c.virtual_sol_reserves c.virtual_token_reserves amt
  have hprod : (c.virtual_sol_reserves - sol) *
      (c.virtual_token_reserves + amt) ≤
      30000000000 * 1073000000000000000 := by
    have hsub : c.virtual_sol_reserves - sol =
        c.virtual_sol_reserves * c.virtual_token_reserves /
          (c.virtual_token_reserves + amt) := by omega
    rw [hsub]
    calc c.virtual_sol_reserves * c.virtual_token_reserves /
          (c.virtual_token_reserves + amt) * (c.virtual_token_reserves + amt)
        ≤ c.virtual_sol_reserves * c.virtual_token_reserves :=
          Nat.div_mul_le_self _ _
      _ ≤ 30000000000 * 1073000000000000000 := e3
  refine ⟨?_, ?_, ?_, ?_, ?_, ?_⟩ <;> dsimp only
  · omega
  · omega
  · exact hprod
  · exact e4
  · omega
  · omega

theorem reachable_curveInv {c : BondingCurve} (h : Reachable c) : CurveInv c := by
  induction h with
  | seed => exact curveInv_new
  | buy c c' amt out hr hstep ih => exact applyBuy_inv ih hstep
  | sell c c' amt sol hr hstep ih => exact applySell_inv ih hstep

theorem increment_nonce_ok_inv {c c2 : X402Config}
    (h : c.increment_nonce = .ok c2) :
    c.nonce + 1 < U64 ∧ c2 = { c with nonce := c.nonce + 1 } := by
  unfold X402Config.increment_nonce at h
  split at h <;> rename_i h1
  · simp at h
  · rw [checked_add_eq_some] at h1
    obtain ⟨rfl⟩ := h
    obtain ⟨hh1, rfl⟩ := h1
    exact ⟨hh1, rfl⟩

theorem record_payment_ok_inv {c c2 : X402Config} {a : Nat}
    (h : c.record_payment a = .ok c2) :
    c.total_payments_received + a < U64 ∧ c.total_service_calls + 1 < U64 ∧
      c2 = { c with total_payments_received := c.total_payments_received + a,
                    total_service_calls := c.total_service_calls + 1 } := by
  unfold X402Config.record_payment at h
  split at h <;> rename_i h1
  · simp at h
  · rw [checked_add_eq_some] at h1
    split at h <;> rename_i h2
    · simp at h
    · rw [checked_add_eq_some] at h2
      obtain ⟨rfl⟩ := h
      obtain ⟨hh1, rfl⟩ := h1
      obtain ⟨hh2, rfl⟩ := h2
      exact ⟨hh1, hh2, rfl⟩

theorem pay_ok_inv {cfg : X402Config} {amount : Nat} {sid : String}
    {n ak pk : Nat} {now : Int} {cfg' : X402Config} {rec : X402PaymentRecord}
    (h : pay_for_service cfg amount sid n ak pk now = .ok (cfg', rec)) :
    cfg.enabled = true ∧ cfg.nonce + 1 < U64 ∧ n = cfg.nonce + 1 ∧
      cfg'.nonce = cfg.nonce + 1 := by
  unfold pay_for_service at h
  split at h <;> rename_i he
  · simp at h
  · split at h
    · simp at h
    · split at h <;> rename_i hn
      · simp at h
      · split at h <;> rename_i hsid
        · simp at h
        · split at h <;> rename_i h1
          · simp at h
          · rename_i cfg1
            split at h <;> rename_i h2
            · simp at h
            · rename_i cfg2
              simp only [Except.ok.injEq, Prod.mk.injEq] at h
              obtain ⟨rfl, rfl⟩ := h
              obtain ⟨hlt, rfl⟩ := increment_nonce_ok_inv h1
              obtain ⟨-, -, rfl⟩ := record_payment_ok_inv h2
              refine ⟨by simpa using he, hlt, ?_, rfl⟩
              have : n = castU64 (cfg.nonce + 1) := by simpa using hn
              rw [this, castU64, Nat.mod_eq_of_lt hlt]

theorem payTrace_nonce_le (ak : Nat) (rs : List PayReq) (cfg : X402Config) :
    cfg.nonce ≤ (payTrace ak cfg rs).1.nonce ∧
    ∀ n ∈ (payTrace ak cfg rs).2,
      cfg.nonce < n ∧ n ≤ (payTrace ak cfg rs).1.nonce := by
  induction rs generalizing cfg with
  | nil => simp [payTrace]
  | cons r rs ih =>
    unfold payTrace
    split
    · rename_i cfg' rec hok
      obtain ⟨-, -, hn, hn'⟩ := pay_ok_inv hok
      obtain ⟨ih1, ih2⟩ := ih cfg'
      dsimp only
      constructor
      · omega
      · intro m hm
        rcases List.mem_cons.mp hm with rfl | hm
        · omega
        · have := ih2 m hm
          omega
    · exact ih cfg

theorem payTrace_pairwise (ak : Nat) (rs : List PayReq) (cfg : X402Config) :
    ((payTrace ak cfg rs).2).Pairwise (· < ·) := by
  induction rs generalizing cfg with
  | nil => simp [payTrace]
  | cons r rs ih =>
    unfold payTrace
    split
    · rename_i cfg' rec hok
      dsimp only
      refine List.Pairwise.cons ?_ (ih cfg')
      intro m hm
      obtain ⟨-, -, hn, hn'⟩ := pay_ok_inv hok
      have := (payTrace_nonce_le ak rs cfg').2 m hm
      omega
    · exact ih cfg

/-!  Claim theorems. -/

/-- Claim C3: for every grossAmount in [0, u64::MAX / 20000] with the 1%
basis-point rates hardcoded on both trade paths, the fee split succeeds,
platformFee = creatorFee = grossAmount * 100 / 10000, and
platformFee + creatorFee + netAmount = grossAmount as an exact integer
identity. -/
theorem fee_split_exact_identity (g : Nat) (h : g ≤ (U64 - 1) / 20000) :
    ∃ p cf n, fee_split g = .ok (p, cf, n) ∧
      p = g * 100 / 10000 ∧ cf = g * 100 / 10000 ∧ p + cf + n = g := by
  have h20000 : g * 20000 ≤ U64 - 1 := (Nat.le_div_iff_mul_le (by norm_num)).mp h
  have hU : 0 < U64 := by norm_num [U64]
  have hlt : g * 100 < U64 := by omega
  refine ⟨_, _, _, fee_split_ok g hlt, rfl, rfl, ?_⟩
  have hd : g * 100 / 10000 * 10000 ≤ g * 100 := Nat.div_mul_le_self _ _
  omega

theorem fee_split_exact_identity_witness :
    ∃ p cf n, fee_split 987654321 = .ok (p, cf, n) ∧
      p = 987654321 * 100 / 10000 ∧ cf = 987654321 * 100 / 10000 ∧
      p + cf + n = 987654321 :=
  fee_split_exact_identity 987654321 (by norm_num [U64])

/-- Claim C10: updateConfig overwrites only the enable flag, the two payment
bounds and the timeout; the nonce, both counters, the recipient, the agent
key and the bump are unchanged by every update. -/
theorem update_x402_frame (cfg : X402Config) (e : Bool) (mn mx t : Nat) :
    (update_x402 cfg e mn mx t).nonce = cfg.nonce ∧
    (update_x402 cfg e mn mx t).total_payments_received =
      cfg.total_payments_received ∧
    (update_x402 cfg e mn mx t).total_service_calls = cfg.total_service_calls ∧
    (update_x402 cfg e mn mx t).payment_recipient = cfg.payment_recipient ∧
    (update_x402 cfg e mn mx t).agent = cfg.agent ∧
    (update_x402 cfg e mn mx t).bump = cfg.bump ∧
    (update_x402 cfg e mn mx t).enabled = e ∧
    (update_x402 cfg e mn mx t).min_payment_amount = mn ∧
    (update_x402 cfg e mn mx t).max_payment_amount = mx ∧
    (update_x402 cfg e mn mx t).service_timeout_seconds = t :=
  ⟨rfl, rfl, rfl, rfl, rfl, rfl, rfl, rfl, rfl, rfl⟩

/-- Claim C4 (amended): quoteBuy returns exactly
virtualToken - (virtualSol * virtualToken) / (virtualSol + grossInput), with
the product computed in 128-bit width; it fails MathOverflow exactly when
virtualSol + grossInput overflows u64 or equals zero (the division-by-zero
guard maps to the same error), and never fails InsufficientLiquidity; on the
seed reserves quoteBuy(1000000000) equals the literal formula value. -/
theorem calculate_buy_characterization (c : BondingCurve) (g : Nat)
    (hS : c.virtual_sol_reserves < U64) (hT : c.virtual_token_reserves < U64) :
    (0 < c.virtual_sol_reserves + g → c.virtual_sol_reserves + g < U64 →
      c.calculate_buy g = .ok (c.virtual_token_reserves -
        c.virtual_sol_reserves * c.virtual_token_reserves /
          (c.virtual_sol_reserves + g))) ∧
    (c.calculate_buy g = .error .MathOverflow ↔
      (U64 ≤ c.virtual_sol_reserves + g ∨ c.virtual_sol_reserves + g = 0)) ∧
    c.calculate_buy g ≠ .error .InsufficientLiquidity ∧
    BondingCurve.new.calculate_buy 1000000000 =
      .ok (1073000000000000000 -
        30000000000 * 1073000000000000000 / (30000000000 + 1000000000)) := by
  rw [calc_buy_spec c g hS hT]
  refine ⟨?_, ?_, ?_, by decide⟩
  · intro h0 hlt
    rw [if_pos hlt, if_neg (by omega)]
  · by_cases hlt : c.virtual_sol_reserves + g < U64
    · by_cases h0 : c.virtual_sol_reserves + g = 0
      · simp [hlt, h0]
      · simp [hlt, h0]
    · simp [hlt]
      omega
  · by_cases hlt : c.virtual_sol_reserves + g < U64
    · by_cases h0 : c.virtual_sol_reserves + g = 0 <;> simp [hlt, h0]
    · simp [hlt]

theorem calculate_buy_characterization_witness :
    BondingCurve.new.calculate_buy 1000000000 = .ok 34612903225806452 := by
  have h := (calculate_buy_characterization BondingCurve.new 1000000000
      (by norm_num [BondingCurve.new, U64])
      (by norm_num [BondingCurve.new, U64])).2.2.2
  rw [h]

/-- Claim C4 counterexample: with zero virtual reserves and zero input,
quoteBuy fails MathOverflow (the checked division sees a zero divisor)
although virtualSolReserves + grossInput = 0 does not overflow u64. -/
theorem calculate_buy_overflow_claim_false :
    (BondingCurve.mk 0 0 0 0 0 0 0).calculate_buy 0 = .error .MathOverflow ∧
    (BondingCurve.mk 0 0 0 0 0 0 0).virtual_sol_reserves + 0 < U64 := by
  decide

/-- Claim C7 (amended): for a fixed u64 reserve state, quoteBuy is monotone
(non-decreasing) in the SOL input wherever it succeeds, and the quoted
tokensOut never exceeds virtualTokenReserves. -/
theorem calculate_buy_monotone (c : BondingCurve) (g1 g2 t1 t2 : Nat)
    (hS : c.virtual_sol_reserves < U64) (hT : c.virtual_token_reserves < U64)
    (h12 : g1 ≤ g2)
    (h1 : c.calculate_buy g1 = .ok t1) (h2 : c.calculate_buy g2 = .ok t2) :
    t1 ≤ t2 ∧ t2 ≤ c.virtual_token_reserves := by
  obtain ⟨h01, hlt1, rfl⟩ := calc_buy_ok_inv hS hT h1
  obtain ⟨h02, hlt2, rfl⟩ := calc_buy_ok_inv hS hT h2
  have hmono : c.virtual_sol_reserves * c.virtual_token_reserves /
      (c.virtual_sol_reserves + g2) ≤
      c.virtual_sol_reserves * c.virtual_token_reserves /
        (c.virtual_sol_reserves + g1) :=
    Nat.div_le_div_left (by omega) h01
  exact ⟨Nat.sub_le_sub_left hmono _, Nat.sub_le _ _⟩

theorem calculate_buy_monotone_witness :
    (34612903225806452 : Nat) ≤ 67062500000000000 ∧
    (67062500000000000 : Nat) ≤ BondingCurve.new.virtual_token_reserves :=
  calculate_buy_monotone BondingCurve.new 1000000000 2000000000
    34612903225806452 67062500000000000
    (by norm_num [BondingCurve.new, U64]) (by norm_num [BondingCurve.new, U64])
    (by norm_num) (by decide) (by decide)

/-- Claim C7 counterexample: on the reserve state with nonzero virtual
reserves (1, 2), the inputs 2 < 3 both quote 2 tokens — the quote is not
strictly increasing — and the quoted 2 equals virtualTokenReserves, so
tokensOut < virtualTokenReserves also fails. -/
theorem calculate_buy_not_strictly_increasing :
    (BondingCurve.mk 1 2 0 0 0 0 0).calculate_buy 2 = .ok 2 ∧
    (BondingCurve.mk 1 2 0 0 0 0 0).calculate_buy 3 = .ok 2 ∧
    (BondingCurve.mk 1 2 0 0 0 0 0).virtual_token_reserves = 2 := by
  decide

/-- Claim C9: in every state reachable from the seeded bonding curve by any
sequence of successful buy/sell settlements, realTokenReserves never exceeds
bondingCurveSupply. -/
theorem reachable_real_token_le_supply (c : BondingCurve) (h : Reachable c) :
    c.real_token_reserves ≤ c.bonding_curve_supply := by
  obtain ⟨e1, e2, e3, e4, e5, e6⟩ := reachable_curveInv h
  have hS0 : 30000000000 ≤ c.virtual_sol_reserves := by omega
  have hmul : 30000000000 * c.virtual_token_reserves ≤
      30000000000 * 1073000000000000000 :=
    le_trans (Nat.mul_le_mul_right _ hS0) e3
  have hT : c.virtual_token_reserves ≤ 1073000000000000000 :=
    Nat.le_of_mul_le_mul_left hmul (by norm_num)
  omega

theorem reachable_real_token_le_supply_witness :
    BondingCurve.new.real_token_reserves ≤
      BondingCurve.new.bonding_curve_supply :=
  reachable_real_token_le_supply BondingCurve.new Reachable.seed

/-- Claim C2 (amended): for a config with stored nonce N whose increment and
counters stay within u64 (N + 1 < 2^64, totals do not saturate), with
payments enabled, the amount within bounds and a valid service id: pay with
suppliedNonce = N + 1 succeeds and leaves the stored nonce N + 1 (counters
advanced, everything else unchanged); pay with any suppliedNonce ≠ N + 1
fails NonceMismatch (the transaction aborts, leaving the config unchanged);
and along any request sequence the accepted payments carry pairwise distinct
nonces.  At N = u64::MAX the rejection instead surfaces as NonceOverflow,
as the counterexample shows. -/
theorem pay_nonce_protocol (cfg : X402Config) (amount : Nat) (sid : String)
    (ak pk : Nat) (now : Int)
    (henb : cfg.enabled = true)
    (hmin : cfg.min_payment_amount ≤ amount)
    (hmax : cfg.max_payment_amount = 0 ∨ amount ≤ cfg.max_payment_amount)
    (hsid : 0 < sid.length ∧ sid.length ≤ 32)
    (hn : cfg.nonce + 1 < U64)
    (htot : cfg.total_payments_received + amount < U64)
    (hcalls : cfg.total_service_calls + 1 < U64) :
    (pay_for_service cfg amount sid (cfg.nonce + 1) ak pk now =
      .ok ({ cfg with
             nonce := cfg.nonce + 1
             total_payments_received := cfg.total_payments_received + amount
             total_service_calls := cfg.total_service_calls + 1 },
           { agent := ak
             payer := pk
             amount := amount
             timestamp := now
             service_id := sid
             status := .Verified })) ∧
    (∀ n, n ≠ cfg.nonce + 1 →
      pay_for_service cfg amount sid n ak pk now = .error .NonceMismatch) ∧
    (∀ rs, ((payTrace ak cfg rs).2).Nodup) := by
  have hcast : castU64 (cfg.nonce + 1) = cfg.nonce + 1 := Nat.mod_eq_of_lt hn
  have hmax' : ¬ (0 < cfg.max_payment_amount ∧
      cfg.max_payment_amount < amount) := by
    rcases hmax with h | h <;> omega
  refine ⟨?_, ?_, ?_⟩
  · unfold pay_for_service X402Config.validate_payment_amount
      X402Config.increment_nonce X402Config.record_payment
    rw [hcast]
    simp [henb, hmin, hmax', hsid.1, hsid.2, checked_add, hn, htot, hcalls]
  · intro n hne
    unfold pay_for_service X402Config.validate_payment_amount
    rw [hcast]
    simp [henb, hmin, hmax', hne]
  · intro rs
    exact List.Pairwise.imp (fun h => Nat.ne_of_lt h)
      (payTrace_pairwise ak rs cfg)

theorem pay_nonce_protocol_witness :
    pay_for_service ⟨0, 1, true, 0, 0, 0, 0, 0, 5, 0⟩ 10 "svc" 6 3 2 0 =
      .ok (⟨0, 1, true, 0, 0, 0, 10, 1, 6, 0⟩,
           ⟨3, 2, 10, 0, "svc", .Verified⟩) ∧
    pay_for_service ⟨0, 1, true, 0, 0, 0, 0, 0, 5, 0⟩ 10 "svc" 9 3 2 0 =
      .error .NonceMismatch := by
  have h := pay_nonce_protocol ⟨0, 1, true, 0, 0, 0, 0, 0, 5, 0⟩ 10 "svc" 3 2 0
    rfl (by norm_num) (Or.inl rfl) (by decide) (by norm_num [U64])
    (by norm_num [U64]) (by norm_num [U64])
  exact ⟨h.1, h.2.1 9 (by norm_num)⟩

/-- Claim C2 counterexample: with stored nonce u64::MAX, the supplied
nonce 0 is not N + 1, yet pay fails with NonceOverflow, not NonceMismatch:
the u64 compare against the wrapped storedNonce + 1 = 0 passes and the
checked increment then overflows. -/
theorem pay_nonce_at_max_not_mismatch :
    pay_for_service ⟨0, 1, true, 0, 0, 0, 0, 0, U64 - 1, 0⟩ 5 "svc" 0 3 2 0 =
      .error .NonceOverflow ∧ (0 : Nat) ≠ (U64 - 1) + 1 := by
  constructor
  · decide
  · norm_num [U64]

/-- Claim C1: refuted by the code — the buy handler quotes tokens_out from
the caller's gross SOL input but applies update_after_buy with the net
amount (gross minus the 2% fees), so the constant product
virtualSol * virtualToken strictly DECREASES across the buy settlement.
Evaluated on the seeded curve with a 1 SOL buy: the product drops from
30000000000 * 1073000000000000000 to 30980000000 * 1038387096774193548. -/
theorem buy_decreases_constant_product :
    buy_tokens ⟨false, BondingCurve.new⟩ 1000000000 0 =
      .ok (⟨false, ⟨30980000000, 1038387096774193548, 980000000,
        765387096774193548, 30000000000000, 800000000000000000,
        1000000000000000000⟩⟩, 34612903225806452) ∧
    (30980000000 : Nat) * 1038387096774193548 <
      BondingCurve.new.virtual_sol_reserves *
        BondingCurve.new.virtual_token_reserves := by
  constructor
  · decide
  · norm_num [BondingCurve.new]

/-- Claim C6: refuted by the code — the sell path checks only the net seller
payout against the pooled lamports before moving value.  On the state below
the quote is 500, the fees are 5 + 5 and the net payout 490 equals the pool,
so the up-front check passes, the burn and the net transfer are issued, and
the unchecked platform-fee debit then underflows mid-transfer; the claimed
up-front InsufficientLiquidity rejection never happens. -/
theorem sell_fee_debit_underflows_mid_transfer :
    sell_tokens ⟨⟨false, ⟨1000, 1000, 500, 1000, 1000000000000000000,
        1000000000000000000, 1000000000000000000⟩⟩, 490, 0, 0, 0, 1000⟩
      1000 0 = .error (.lamportUnderflow, true) := by
  decide

/-- Claim C5 (amended): canGraduate holds iff not yet graduated and
realSolReserves has reached graduationThreshold; a successful graduation
sets isGraduated (and was only possible from isGraduated = false); every buy
or sell with a positive amount on a graduated agent fails AlreadyGraduated
(a zero amount fails the earlier zero-amount guard instead); and no modelled
operation ever resets isGraduated to false. -/
theorem graduation_protocol (a : Agent) (amt m : Nat) (st : SellState) :
    (a.can_graduate = true ↔
      (a.is_graduated = false ∧
        a.bonding_curve.graduation_threshold ≤
          a.bonding_curve.real_sol_reserves)) ∧
    (∀ a', graduate_agent a = .ok a' →
      a'.is_graduated = true ∧ a.is_graduated = false) ∧
    (a.is_graduated = true → 0 < amt →
      buy_tokens a amt m = .error .AlreadyGraduated) ∧
    (st.agent.is_graduated = true → 0 < amt →
      sell_tokens st amt m = .error (.program .AlreadyGraduated, false)) ∧
    (∀ a' out, buy_tokens a amt m = .ok (a', out) →
      a'.is_graduated = a.is_graduated) ∧
    (∀ st', sell_tokens st amt m = .ok st' →
      st'.agent.is_graduated = st.agent.is_graduated) := by
  refine ⟨?_, ?_, ?_, ?_, ?_, ?_⟩
  · simp [Agent.can_graduate, Bool.and_eq_true, Bool.not_eq_true',
      decide_eq_true_iff]
  · intro a' h
    unfold graduate_agent at h
    split at h <;> rename_i hcan
    · obtain ⟨rfl⟩ := h
      refine ⟨rfl, ?_⟩
      simp only [Agent.can_graduate, Bool.and_eq_true, Bool.not_eq_true'] at hcan
      exact hcan.1
    · simp at h
  · intro hgrad hpos
    unfold buy_tokens
    simp [hgrad, hpos]
  · intro hgrad hpos
    unfold sell_tokens
    simp [hgrad, hpos]
  · intro a' out h
    unfold buy_tokens at h
    split at h
    · simp at h
    · split at h
      · simp at h
      · split at h
        · simp at h
        · rename_i tokens_out hq
          split at h
          · simp at h
          · split at h
            · simp at h
            · rename_i fs hf
              split at h
              · simp at h
              · rename_i bc hu
                simp only [Except.ok.injEq, Prod.mk.injEq] at h
                obtain ⟨rfl, rfl⟩ := h
                rfl
  · intro st' h
    unfold sell_tokens at h
    repeat' split at h
    all_goals first
      | (obtain ⟨rfl⟩ := h; rfl)
      | simp at h

theorem graduation_protocol_witness :
    buy_tokens ⟨true, BondingCurve.new⟩ 7 0 = .error .AlreadyGraduated ∧
    sell_tokens ⟨⟨true, BondingCurve.new⟩, 0, 0, 0, 0, 0⟩ 7 0 =
      .error (.program .AlreadyGraduated, false) := by
  have h := graduation_protocol ⟨true, BondingCurve.new⟩ 7 0
    ⟨⟨true, BondingCurve.new⟩, 0, 0, 0, 0, 0⟩
  exact ⟨h.2.2.1 rfl (by norm_num), h.2.2.2.1 rfl (by norm_num)⟩

/-- Claim C5 counterexample: on a graduated agent, a zero-amount buy fails
with InvalidBuyAmount — the zero-amount guard runs before the graduation
guard — so "every subsequent buy or sell fails with AlreadyGraduated" is
false as stated. -/
theorem graduated_zero_buy_other_error :
    buy_tokens ⟨true, BondingCurve.new⟩ 0 0 = .error .InvalidBuyAmount ∧
    AgentFactoryError.InvalidBuyAmount ≠ .AlreadyGraduated := by
  decide

/-- Claim C8 (amended): buy and sell reject a zero amount as their first
check, independently of all account state; the payment operations (pay and
the agent-to-agent call) validate the amount against the configured minimum
after the enabled check, so a zero amount fails PaymentTooLow exactly when
minPaymentAmount > 0, and passes validation when the configured minimum is
zero. -/
theorem zero_amount_validation (a : Agent) (m : Nat) (st : SellState)
    (cfg : X402Config) (sid : String) (n ak pk : Nat) (now : Int) :
    buy_tokens a 0 m = .error .InvalidBuyAmount ∧
    sell_tokens st 0 m = .error (.program .InvalidSellAmount, false) ∧
    (cfg.enabled = true → 0 < cfg.min_payment_amount →
      pay_for_service cfg 0 sid n ak pk now = .error .PaymentTooLow) ∧
    (cfg.enabled = true → 0 < cfg.min_payment_amount →
      call_agent_service cfg 0 sid n [] ak pk now = .error .PaymentTooLow) := by
  refine ⟨?_, ?_, ?_, ?_⟩
  · unfold buy_tokens
    simp
  · unfold sell_tokens
    simp
  · intro henb hmin
    unfold pay_for_service X402Config.validate_payment_amount
    have : ¬ cfg.min_payment_amount ≤ 0 := by omega
    simp [henb, this]
  · intro henb hmin
    unfold call_agent_service X402Config.validate_payment_amount
    have : ¬ cfg.min_payment_amount ≤ 0 := by omega
    simp [henb, this]

theorem zero_amount_validation_witness :
    buy_tokens ⟨false, BondingCurve.new⟩ 0 0 = .error .InvalidBuyAmount ∧
    pay_for_service ⟨0, 1, true, 5, 0, 0, 0, 0, 0, 0⟩ 0 "svc" 1 3 2 0 =
      .error .PaymentTooLow := by
  have h := zero_amount_validation ⟨false, BondingCurve.new⟩ 0
    ⟨⟨false, BondingCurve.new⟩, 0, 0, 0, 0, 0⟩
    ⟨0, 1, true, 5, 0, 0, 0, 0, 0, 0⟩ "svc" 1 3 2 0
  exact ⟨h.1, h.2.2.1 rfl (by norm_num)⟩

/-- Claim C8 counterexample: with payments enabled and minPaymentAmount = 0,
a zero-amount pay passes validation and the whole payment succeeds — zero
amounts are not rejected on the payment path. -/
theorem pay_accepts_zero_amount :
    pay_for_service ⟨0, 1, true, 0, 0, 0, 0, 0, 0, 0⟩ 0 "svc" 1 3 2 0 =
      .ok (⟨0, 1, true, 0, 0, 0, 0, 1, 1, 0⟩, ⟨3, 2, 0, 0, "svc", .Verified⟩) := by
  decide

end AgentFactory
